import Mathlib

/-!
Shallow embedding of the Order Pricing & Settlement Engine of the
letmeGrab e-commerce API (order controller: calculateOrder, placeOrder,
updatePaymentStatus), together with proofs about the claims of the
specification.

Modelling conventions:
* DECIMAL(10,2) monetary columns and JS numeric amounts are modelled as
  exact rationals; IEEE float rounding and toFixed display rounding are
  not modelled (the claims are algebraic, not about float error).
* Nullable Prisma DECIMAL columns (coupon.minPurchase, coupon.maxDiscount)
  come back from the client as Decimal objects, and any JS object is
  truthy, so a truthiness guard on such a field runs its right-hand
  comparison exactly when the field is non-null, even when the stored
  value is 0.  Nullable INTEGER columns (totalUsageLimit,
  usageLimitPerUser) come back as JS numbers, so both null and 0 are
  falsy there.  Each guard below is written as an explicit match that
  encodes exactly this.
* The HTTP envelope (sendSuccess / sendError) is dropped; each distinct
  sendError call site is modelled as a distinct error kind, so an
  operation returns Except Err of its payload.  An error return happens
  before any mutation in the source (all sendError calls precede or
  abort the prisma transaction), so an .error result leaves the state
  untouched by construction.
* Database rows are modelled structurally: per-id functions for
  products, wallets and per-user coupon usage, lists for coupons,
  orders and payment transactions.  Timestamps are integers.
-/

namespace OrderEngine

abbrev Money := ℚ
abbrev ProductId := Nat
abbrev UserId := Nat
abbrev CouponId := Nat
abbrev OrderId := Nat

inductive DiscountType where
  | PERCENTAGE
  | FIXED
deriving DecidableEq, Repr

inductive PaymentStatus where
  | PENDING
  | SUCCESS
  | FAILED
  | REFUNDED
deriving DecidableEq, Repr

inductive OrderStatus where
  | PENDING
  | CONFIRMED
  | PROCESSING
  | SHIPPED
  | DELIVERED
  | CANCELLED
deriving DecidableEq, Repr

/-- products table row (the fields the order controller reads). -/
structure Product where
  price : Money
  stock : Int
  isActive : Bool
deriving DecidableEq, Repr

/-- coupons table row. -/
structure Coupon where
  id : CouponId
  code : String
  discountType : DiscountType
  discountValue : Money
  minPurchase : Option Money
  maxDiscount : Option Money
  validFrom : Int
  validTo : Int
  isActive : Bool
  totalUsageLimit : Option Int
  currentUsageCount : Int
  usageLimitPerUser : Option Int
deriving DecidableEq, Repr

/-- cart table row for one user: product reference and quantity. -/
structure CartItem where
  productId : ProductId
  quantity : Nat
deriving DecidableEq, Repr

/-- order_items table row (price is the snapshot taken at commit time). -/
structure OrderItemRow where
  productId : ProductId
  quantity : Nat
  price : Money
deriving DecidableEq, Repr

/-- orders table row, with its order_items included. -/
structure OrderRow where
  id : OrderId
  userId : UserId
  couponId : Option CouponId
  totalAmount : Money
  couponDiscount : Money
  walletPointsUsed : Money
  finalAmount : Money
  paymentStatus : PaymentStatus
  orderStatus : OrderStatus
  items : List OrderItemRow
deriving DecidableEq, Repr

/-- transactions table row (1:1 with orders). -/
structure TransactionRow where
  orderId : OrderId
  paymentStatus : PaymentStatus
deriving DecidableEq, Repr

/-- The database state the order controller touches.  userCouponCount
models the user_coupons table: none means no (userId, couponId) row,
some n means a row with usageCount n. -/
structure DB where
  products : ProductId → Product
  carts : UserId → List CartItem
  coupons : List Coupon
  walletPoints : UserId → Money
  userCouponCount : UserId → CouponId → Option Int
  orders : List OrderRow
  txns : List TransactionRow
  nextOrderId : OrderId

/-- Request body of calculateOrder / placeOrder. -/
structure PricingInput where
  couponCode : Option String
  useWalletPoints : Bool
  walletPointsToUse : Option Money
deriving DecidableEq, Repr

/-- One error kind per distinct sendError call site of the controller.
calculateOrder reports a missing coupon (404) and an inactive coupon
(400) separately; placeOrder collapses both into one 400 outcome
(CouponInvalidOrInactive). -/
inductive Err where
  | EmptyCart
  | ProductUnavailable (productId : ProductId)
  | InsufficientStock (productId : ProductId)
  | CouponNotFound
  | CouponInactive
  | CouponInvalidOrInactive
  | CouponExpired
  | MinPurchaseNotMet
  | CouponUsageLimitReached
  | UserCouponLimitReached
  | InsufficientWalletBalance
  | WalletExceedsPayable
  | InvalidPaymentStatus
  | OrderNotFound
  | PaymentAlreadyCompleted
deriving DecidableEq, Repr

/-- The priced breakdown both pricing passes compute, plus the coupon
object placeOrder carries into its transaction. -/
structure Breakdown where
  subtotal : Money
  couponDiscount : Money
  walletPointsUsed : Money
  finalAmount : Money
  coupon : Option Coupon
deriving DecidableEq, Repr

/-- prisma.coupon.findUnique({ where: { code } }). -/
def findCoupon (db : DB) (code : String) : Option Coupon :=
  db.coupons.find? (fun c => c.code == code)

/-- The per-item validation loop that appears verbatim in both
calculateOrder (lines 31-46) and placeOrder (lines 213-228): the product
must be active and its stock must cover the requested quantity. -/
def checkItems (db : DB) : List CartItem → Option Err
  | [] => none
  | i :: rest =>
    if !(db.products i.productId).isActive then some (Err.ProductUnavailable i.productId)
    else if (db.products i.productId).stock < (i.quantity : Int) then
      some (Err.InsufficientStock i.productId)
    else checkItems db rest

/-- cartItems.reduce((sum, item) => sum + price * quantity, 0). -/
def subtotalOf (db : DB) (items : List CartItem) : Money :=
  items.foldl (fun s i => s + (db.products i.productId).price * (i.quantity : Money)) 0

/-- Guard coupon.minPurchase && subtotal < parseFloat(coupon.minPurchase).
minPurchase is a nullable Decimal: non-null values are truthy objects,
so a stored 0 still reaches the comparison (which then compares against
0). -/
def minPurchaseBlocks (c : Coupon) (subtotal : Money) : Bool :=
  match c.minPurchase with
  | some m => decide (subtotal < m)
  | none => false

/-- Guard coupon.totalUsageLimit && currentUsageCount >= totalUsageLimit.
totalUsageLimit is a nullable INTEGER, a JS number when non-null, so
both null and 0 are falsy and skip the comparison. -/
def totalUsageLimitBlocks (c : Coupon) : Bool :=
  match c.totalUsageLimit with
  | some l => l != 0 && decide (l ≤ c.currentUsageCount)
  | none => false

/-- Guard if (userCoupon) { if (usageLimitPerUser && usageCount >= limit) }.
Runs only when a user_coupons row exists; usageLimitPerUser is a
nullable INTEGER, so null and 0 are both falsy. -/
def userUsageLimitBlocks (c : Coupon) (userUsage : Option Int) : Bool :=
  match userUsage, c.usageLimitPerUser with
  | some cnt, some l => l != 0 && decide (l ≤ cnt)
  | _, _ => false

/-- Discount computation, identical in calculateOrder (lines 117-128)
and placeOrder (lines 287-297): PERCENTAGE is subtotal*value/100 with
the maxDiscount branch taken whenever maxDiscount is non-null (Decimal
truthiness); FIXED is the value verbatim; the result is then clamped
with Math.min against the subtotal. -/
def couponDiscountOf (c : Coupon) (subtotal : Money) : Money :=
  let d :=
    match c.discountType with
    | .PERCENTAGE =>
      let raw := subtotal * c.discountValue / 100
      match c.maxDiscount with
      | some m => if m < raw then m else raw
      | none => raw
    | .FIXED => c.discountValue
  min d subtotal

/-- Coupon eligibility and discount as calculateOrder runs it after its
findUnique (lines 67-128), with the distinct error kinds of calculateOrder. -/
def evalCouponCalc (c : Coupon) (userUsage : Option Int) (now : Int) (subtotal : Money) :
    Except Err Money :=
  if !c.isActive then .error .CouponInactive
  else if now < c.validFrom ∨ c.validTo < now then .error .CouponExpired
  else if minPurchaseBlocks c subtotal then .error .MinPurchaseNotMet
  else if totalUsageLimitBlocks c then .error .CouponUsageLimitReached
  else if userUsageLimitBlocks c userUsage then .error .UserCouponLimitReached
  else .ok (couponDiscountOf c subtotal)

/-- The same block as it appears in placeOrder (lines 245-297): the
inactive case shares the combined invalid-or-inactive outcome of placeOrder;
everything else is identical. -/
def evalCouponPlace (c : Coupon) (userUsage : Option Int) (now : Int) (subtotal : Money) :
    Except Err Money :=
  if !c.isActive then .error .CouponInvalidOrInactive
  else if now < c.validFrom ∨ c.validTo < now then .error .CouponExpired
  else if minPurchaseBlocks c subtotal then .error .MinPurchaseNotMet
  else if totalUsageLimitBlocks c then .error .CouponUsageLimitReached
  else if userUsageLimitBlocks c userUsage then .error .UserCouponLimitReached
  else .ok (couponDiscountOf c subtotal)

/-- Wallet allocation of calculateOrder (lines 141-160).  An explicit
request is recognized with walletPointsToUse !== undefined && !== null,
so a requested 0 is honored as exactly 0; the auto branch only runs for
a strictly positive balance. -/
def walletAllocCalc (available amountAfterCoupon : Money) (useWalletPoints : Bool)
    (requested : Option Money) : Except Err Money :=
  match useWalletPoints, requested with
  | true, some w =>
    if available < w then .error .InsufficientWalletBalance
    else if amountAfterCoupon < w then .error .WalletExceedsPayable
    else .ok w
  | true, none =>
    if 0 < available then .ok (min available amountAfterCoupon) else .ok 0
  | false, _ => .ok 0

/-- Wallet allocation of placeOrder (lines 309-326).  The explicit
request is recognized with a plain truthiness test if (walletPointsToUse),
so a requested 0 falls through to the auto branch, which here has no
positivity guard on the balance. -/
def walletAllocPlace (available amountAfterCoupon : Money) (useWalletPoints : Bool)
    (requested : Option Money) : Except Err Money :=
  match useWalletPoints, requested with
  | true, some w =>
    if w ≠ 0 then
      if available < w then .error .InsufficientWalletBalance
      else if amountAfterCoupon < w then .error .WalletExceedsPayable
      else .ok w
    else .ok (min available amountAfterCoupon)
  | true, none => .ok (min available amountAfterCoupon)
  | false, _ => .ok 0

/-- The coupon section of calculateOrder (lines 57-129): if (couponCode)
is JS truthiness, so null/undefined and the empty string both mean no
coupon; otherwise findUnique plus the eligibility/discount block. -/
def couponStageCalc (db : DB) (uid : UserId) (now : Int) (code : Option String)
    (subtotal : Money) : Except Err (Money × Option Coupon) :=
  match code with
  | none => .ok (0, none)
  | some s =>
    if s = "" then .ok (0, none)
    else match findCoupon db s with
    | none => .error .CouponNotFound
    | some c =>
      match evalCouponCalc c (db.userCouponCount uid c.id) now subtotal with
      | .error e => .error e
      | .ok d => .ok (d, some c)

/-- The coupon section of placeOrder (lines 239-298): identical except
that a missing coupon reports the combined invalid-or-inactive outcome. -/
def couponStagePlace (db : DB) (uid : UserId) (now : Int) (code : Option String)
    (subtotal : Money) : Except Err (Money × Option Coupon) :=
  match code with
  | none => .ok (0, none)
  | some s =>
    if s = "" then .ok (0, none)
    else match findCoupon db s with
    | none => .error .CouponInvalidOrInactive
    | some c =>
      match evalCouponPlace c (db.userCouponCount uid c.id) now subtotal with
      | .error e => .error e
      | .ok d => .ok (d, some c)

/-- calculateOrder (part_009 lines 5-184): the pure pricing pipeline up
to the returned breakdown; it mutates nothing.  amountAfterCoupon is
subtotal - couponDiscount, so finalAmount is
max 0 (subtotal - couponDiscount - walletPointsUsed). -/
def calculateOrder (db : DB) (uid : UserId) (now : Int) (inp : PricingInput) :
    Except Err Breakdown :=
  if (db.carts uid).isEmpty then .error .EmptyCart
  else match checkItems db (db.carts uid) with
  | some e => .error e
  | none =>
    match couponStageCalc db uid now inp.couponCode (subtotalOf db (db.carts uid)) with
    | .error e => .error e
    | .ok (couponDiscount, coupon) =>
      match walletAllocCalc (db.walletPoints uid)
          (subtotalOf db (db.carts uid) - couponDiscount)
          inp.useWalletPoints inp.walletPointsToUse with
      | .error e => .error e
      | .ok walletPointsUsed =>
        .ok { subtotal := subtotalOf db (db.carts uid),
              couponDiscount := couponDiscount,
              walletPointsUsed := walletPointsUsed,
              finalAmount := max 0 (subtotalOf db (db.carts uid) - couponDiscount - walletPointsUsed),
              coupon := coupon }

/-- The pre-transaction phase of placeOrder (lines 189-328): the same
pipeline re-run from scratch, with the error collapsing of placeOrder itself and
wallet truthiness test.  All of it executes before prisma.$transaction
is opened. -/
def placeOrderPricing (db : DB) (uid : UserId) (now : Int) (inp : PricingInput) :
    Except Err Breakdown :=
  if (db.carts uid).isEmpty then .error .EmptyCart
  else match checkItems db (db.carts uid) with
  | some e => .error e
  | none =>
    match couponStagePlace db uid now inp.couponCode (subtotalOf db (db.carts uid)) with
    | .error e => .error e
    | .ok (couponDiscount, coupon) =>
      match walletAllocPlace (db.walletPoints uid)
          (subtotalOf db (db.carts uid) - couponDiscount)
          inp.useWalletPoints inp.walletPointsToUse with
      | .error e => .error e
      | .ok walletPointsUsed =>
        .ok { subtotal := subtotalOf db (db.carts uid),
              couponDiscount := couponDiscount,
              walletPointsUsed := walletPointsUsed,
              finalAmount := max 0 (subtotalOf db (db.carts uid) - couponDiscount - walletPointsUsed),
              coupon := coupon }

/-- The data the pre-transaction phase of placeOrder hands to its transaction
body: the cart lines with the unit prices read at validation time, the
coupon id and the computed amounts. -/
structure CommitData where
  uid : UserId
  items : List OrderItemRow
  couponId : Option CouponId
  totalAmount : Money
  couponDiscount : Money
  walletPointsUsed : Money
  finalAmount : Money
deriving DecidableEq, Repr

def commitDataFor (db : DB) (uid : UserId) (b : Breakdown) : CommitData :=
  { uid := uid,
    items := (db.carts uid).map (fun i =>
      { productId := i.productId, quantity := i.quantity,
        price := (db.products i.productId).price }),
    couponId := b.coupon.map (fun c => c.id),
    totalAmount := b.subtotal,
    couponDiscount := b.couponDiscount,
    walletPointsUsed := b.walletPointsUsed,
    finalAmount := b.finalAmount }

/-- Additive update of the stock of one product; every stock mutation in the
controller is a Prisma increment/decrement of this shape. -/
def adjustStock (f : ProductId → Product) (p : ProductId) (delta : Int) : ProductId → Product :=
  fun q => if q = p then { f q with stock := (f q).stock + delta } else f q

/-- The per-line stock decrement loop of the placeOrder transaction
(lines 365-375): a blind decrement, no condition checked at write time. -/
def decStocks (f : ProductId → Product) : List OrderItemRow → ProductId → Product
  | [] => f
  | i :: rest => decStocks (adjustStock f i.productId (-(i.quantity : Int))) rest

/-- The per-item stock restore loop of updatePaymentStatus
(lines 522-532): a blind increment. -/
def incStocks (f : ProductId → Product) : List OrderItemRow → ProductId → Product
  | [] => f
  | i :: rest => incStocks (adjustStock f i.productId (i.quantity : Int)) rest

/-- Prisma increment/decrement of coupons.currentUsageCount for one id. -/
def bumpCouponUsage (cs : List Coupon) (cid : CouponId) (delta : Int) : List Coupon :=
  cs.map (fun c =>
    if c.id = cid then { c with currentUsageCount := c.currentUsageCount + delta } else c)

/-- tx.userCoupon.upsert (lines 401-420): create usageCount 1 when no
row exists, otherwise increment. -/
def upsertUserCoupon (f : UserId → CouponId → Option Int) (u : UserId) (cid : CouponId) :
    UserId → CouponId → Option Int :=
  fun u2 c2 =>
    if u2 = u ∧ c2 = cid then
      match f u2 c2 with
      | none => some 1
      | some n => some (n + 1)
    else f u2 c2

/-- tx.userCoupon.updateMany decrement (lines 558-568): decrement the
matching row when it exists, otherwise touch nothing. -/
def decUserCoupon (f : UserId → CouponId → Option Int) (u : UserId) (cid : CouponId) :
    UserId → CouponId → Option Int :=
  fun u2 c2 =>
    if u2 = u ∧ c2 = cid then (f u2 c2).map (fun n => n - 1) else f u2 c2

/-- The body of the placeOrder prisma.$transaction (lines 331-437) as a
total state transformer: create the order with its items and pending
payment transaction, blindly decrement the stock of each product, debit the
wallet when walletPointsUsed > 0, bump the coupon counters, clear the
cart.  The body has no abort path of its own. -/
def placeOrderTx (cd : CommitData) (db : DB) : DB × OrderRow :=
  let newOrder : OrderRow :=
    { id := db.nextOrderId, userId := cd.uid, couponId := cd.couponId,
      totalAmount := cd.totalAmount, couponDiscount := cd.couponDiscount,
      walletPointsUsed := cd.walletPointsUsed, finalAmount := cd.finalAmount,
      paymentStatus := .PENDING, orderStatus := .PENDING, items := cd.items }
  ({ products := decStocks db.products cd.items,
     carts := fun u => if u = cd.uid then [] else db.carts u,
     coupons :=
       match cd.couponId with
       | some cid => bumpCouponUsage db.coupons cid 1
       | none => db.coupons,
     walletPoints := fun u =>
       if u = cd.uid ∧ 0 < cd.walletPointsUsed
       then db.walletPoints u - cd.walletPointsUsed else db.walletPoints u,
     userCouponCount :=
       match cd.couponId with
       | some cid => upsertUserCoupon db.userCouponCount cd.uid cid
       | none => db.userCouponCount,
     orders := newOrder :: db.orders,
     txns := { orderId := db.nextOrderId, paymentStatus := .PENDING } :: db.txns,
     nextOrderId := db.nextOrderId + 1 }, newOrder)

/-- placeOrder (part_009 lines 187-460): the pre-transaction pricing
phase followed by the transaction body over the same state. -/
def placeOrder (db : DB) (uid : UserId) (now : Int) (inp : PricingInput) :
    Except Err (DB × OrderRow) :=
  match placeOrderPricing db uid now inp with
  | .error e => .error e
  | .ok b => .ok (placeOrderTx (commitDataFor db uid b) db)

/-- prisma.order.findFirst({ where: { id: orderId, userId } }). -/
def findOrder (db : DB) (oid : OrderId) (uid : UserId) : Option OrderRow :=
  db.orders.find? (fun o => o.id == oid && o.userId == uid)

/-- tx.order.update setting the two status fields (lines 494-512). -/
def reconcileUpdate (order : OrderRow) (ps : PaymentStatus) : OrderRow :=
  { order with paymentStatus := ps,
               orderStatus := if ps = .SUCCESS then .CONFIRMED else .CANCELLED }

def setOrderRow (os : List OrderRow) (oid : OrderId) (upd : OrderRow) : List OrderRow :=
  os.map (fun o => if o.id = oid then upd else o)

def setTxnStatus (ts : List TransactionRow) (oid : OrderId) (ps : PaymentStatus) :
    List TransactionRow :=
  ts.map (fun t => if t.orderId = oid then { t with paymentStatus := ps } else t)

/-- The FAILED-branch compensation of updatePaymentStatus
(lines 520-570): restore the stock of each item, credit the wallet back when
walletPointsUsed > 0, and when a coupon was used decrement its global
counter and the matching user_coupons row. -/
def reconcileCompensate (db : DB) (uid : UserId) (updated : OrderRow) : DB :=
  { db with
    products := incStocks db.products updated.items,
    walletPoints := fun u =>
      if u = uid ∧ 0 < updated.walletPointsUsed
      then db.walletPoints u + updated.walletPointsUsed else db.walletPoints u,
    coupons :=
      match updated.couponId with
      | some cid => bumpCouponUsage db.coupons cid (-1)
      | none => db.coupons,
    userCouponCount :=
      match updated.couponId with
      | some cid => decUserCoupon db.userCouponCount uid cid
      | none => db.userCouponCount }

/-- updatePaymentStatus (part_009 lines 463-588): validate the requested
status, find the order by id and owner, reject only when the stored
paymentStatus is already SUCCESS, then set the statuses, mirror the
payment transaction row, and on FAILED run the compensation.  Every
.error return happens before the transaction, so it carries no state
change. -/
def updatePaymentStatus (db : DB) (uid : UserId) (oid : OrderId) (ps : PaymentStatus) :
    Except Err (DB × OrderRow) :=
  if ¬(ps = .SUCCESS ∨ ps = .FAILED) then .error .InvalidPaymentStatus
  else match findOrder db oid uid with
  | none => .error .OrderNotFound
  | some order =>
    if order.paymentStatus = .SUCCESS then .error .PaymentAlreadyCompleted
    else
      let updated := reconcileUpdate order ps
      let db1 : DB := { db with orders := setOrderRow db.orders oid updated,
                                txns := setTxnStatus db.txns oid ps }
      if ps = .FAILED then .ok (reconcileCompensate db1 uid updated, updated)
      else .ok (db1, updated)

/-- Maps the two distinct coupon-lookup error kinds of calculateOrder onto
the single combined outcome of placeOrder; every other kind is shared. -/
def collapseErr : Err → Err
  | .CouponNotFound => .CouponInvalidOrInactive
  | .CouponInactive => .CouponInvalidOrInactive
  | e => e

def collapse {α : Type} : Except Err α → Except Err α
  | .error e => .error (collapseErr e)
  | .ok a => .ok a

/-- Projection of a successful result. -/
def okPart {α : Type} : Except Err α → Option α
  | .ok a => some a
  | .error _ => none

/-! ### Further definitions: item snapshots, quantity sums, example states -/

/-- The order-item snapshot placeOrder builds from the cart read. -/
def snapshotItem (db : DB) (i : CartItem) : OrderItemRow :=
  { productId := i.productId, quantity := i.quantity, price := (db.products i.productId).price }

/-- Total quantity an item list carries for one product id. -/
def sumQty : List OrderItemRow → ProductId → Int
  | [], _ => 0
  | i :: rest, p => (if i.productId = p then (i.quantity : Int) else 0) + sumQty rest p

/-! ### Concrete states used by the counterexamples and witnesses -/

/-- Example catalog: product 1 is active with price 10 and stock 5. -/
def exProducts : ProductId → Product :=
  fun p => if p = 1 then { price := 10, stock := 5, isActive := true }
           else { price := 0, stock := 0, isActive := false }

/-- Example coupon: FIXED 5 off, no limits set. -/
def exCoupon : Coupon :=
  { id := 3, code := "SAVE", discountType := .FIXED, discountValue := 5,
    minPurchase := none, maxDiscount := none, validFrom := 0, validTo := 100,
    isActive := true, totalUsageLimit := none, currentUsageCount := 0,
    usageLimitPerUser := none }

/-- Example state: user 7 holds 20 wallet points and carts two units of
product 1. -/
def exDB : DB :=
  { products := exProducts,
    carts := fun u => if u = 7 then [{ productId := 1, quantity := 2 }] else [],
    coupons := [exCoupon],
    walletPoints := fun u => if u = 7 then 20 else 0,
    userCouponCount := fun _ _ => none,
    orders := [], txns := [], nextOrderId := 0 }

/-- Request: coupon SAVE, wallet on, 4 points explicitly requested. -/
def exInp : PricingInput :=
  { couponCode := some "SAVE", useWalletPoints := true, walletPointsToUse := some 4 }

/-- The breakdown both pricing passes compute for exDB/exInp:
subtotal 20, coupon 5 off, 4 wallet points, 11 to pay. -/
def exBd : Breakdown :=
  { subtotal := 20, couponDiscount := 5, walletPointsUsed := 4,
    finalAmount := 11, coupon := some exCoupon }

/-- An order of user 7 that has already been reconciled FAILED once:
its stock, wallet and coupon compensation has already run (stock back to
5, wallet back to 50, the user_coupons row back to 1, the global counter
back to 0). -/
def exFailedOrder : OrderRow :=
  { id := 0, userId := 7, couponId := some 3, totalAmount := 20,
    couponDiscount := 5, walletPointsUsed := 4, finalAmount := 11,
    paymentStatus := .FAILED, orderStatus := .CANCELLED,
    items := [{ productId := 1, quantity := 2, price := 10 }] }

def exFailedDB : DB :=
  { products := exProducts,
    carts := fun _ => [],
    coupons := [exCoupon],
    walletPoints := fun u => if u = 7 then 50 else 0,
    userCouponCount := fun u c => if u = 7 ∧ c = 3 then some 1 else none,
    orders := [exFailedOrder],
    txns := [{ orderId := 0, paymentStatus := .FAILED }],
    nextOrderId := 1 }

/-- The same order still PENDING (as placeOrder creates it). -/
def exPendingOrder : OrderRow :=
  { exFailedOrder with paymentStatus := .PENDING, orderStatus := .PENDING }

def exPendingDB : DB :=
  { exFailedDB with orders := [exPendingOrder],
                    txns := [{ orderId := 0, paymentStatus := .PENDING }] }

/-- The same order already settled SUCCESS. -/
def exSettledOrder : OrderRow :=
  { exFailedOrder with paymentStatus := .SUCCESS, orderStatus := .CONFIRMED }

def exSettledDB : DB :=
  { exFailedDB with orders := [exSettledOrder],
                    txns := [{ orderId := 0, paymentStatus := .SUCCESS }] }

/-- Request with an explicit wallet request of 0. -/
def exInpWalletZero : PricingInput :=
  { couponCode := none, useWalletPoints := true, walletPointsToUse := some 0 }

/-- Product with a single unit in stock, carted by users 7 and 8. -/
def exRaceDB : DB :=
  { products := fun _ => { price := 10, stock := 1, isActive := true },
    carts := fun u => if u = 7 ∨ u = 8 then [{ productId := 1, quantity := 1 }] else [],
    coupons := [], walletPoints := fun _ => 0, userCouponCount := fun _ _ => none,
    orders := [], txns := [], nextOrderId := 0 }

def exRaceInp : PricingInput :=
  { couponCode := none, useWalletPoints := false, walletPointsToUse := none }

def exRaceBd : Breakdown :=
  { subtotal := 10, couponDiscount := 0, walletPointsUsed := 0,
    finalAmount := 10, coupon := none }

/-- PERCENTAGE 10 coupon whose maxDiscount column stores the value 0. -/
def exPctCouponMaxZero : Coupon :=
  { id := 4, code := "P10", discountType := .PERCENTAGE, discountValue := 10,
    minPurchase := none, maxDiscount := some 0, validFrom := 0, validTo := 100,
    isActive := true, totalUsageLimit := none, currentUsageCount := 0,
    usageLimitPerUser := none }

/-- PERCENTAGE 20 coupon capped at 200 (the worked specification
scenario: subtotal 1000 gives discount 200). -/
def exPctCouponCap : Coupon :=
  { id := 5, code := "P20", discountType := .PERCENTAGE, discountValue := 20,
    minPurchase := some 500, maxDiscount := some 200, validFrom := 0, validTo := 100,
    isActive := true, totalUsageLimit := none, currentUsageCount := 0,
    usageLimitPerUser := none }

lemma exDB_stock_nonneg : ∀ p, 0 ≤ (exDB.products p).stock := by
  intro p
  unfold exDB exProducts
  dsimp only
  split <;> decide


/-! ### Helper lemmas about the embedded operations -/

/-! ### Helper lemmas -/

lemma evalCouponPlace_collapse (c : Coupon) (u : Option Int) (now : Int) (st : Money) :
    evalCouponPlace c u now st = collapse (evalCouponCalc c u now st) := by
  unfold evalCouponPlace evalCouponCalc
  split_ifs <;> rfl

lemma evalCouponCalc_ok (c : Coupon) (u : Option Int) (now : Int) (st d : Money)
    (h : evalCouponCalc c u now st = .ok d) : d = couponDiscountOf c st := by
  unfold evalCouponCalc at h
  split_ifs at h
  exact (Except.ok.inj h).symm

lemma evalCouponPlace_ok (c : Coupon) (u : Option Int) (now : Int) (st d : Money)
    (h : evalCouponPlace c u now st = .ok d) : d = couponDiscountOf c st := by
  unfold evalCouponPlace at h
  split_ifs at h
  exact (Except.ok.inj h).symm

lemma couponDiscountOf_le (c : Coupon) (st : Money) : couponDiscountOf c st ≤ st :=
  min_le_right _ _

lemma walletAlloc_agree (a aac : Money) (uw : Bool) (r : Option Money)
    (hr : r ≠ some 0) (ha : 0 ≤ a) (haac : 0 ≤ aac) :
    walletAllocPlace a aac uw r = walletAllocCalc a aac uw r := by
  unfold walletAllocPlace walletAllocCalc
  cases uw with
  | false => cases r <;> rfl
  | true =>
    cases r with
    | none =>
      by_cases hpos : 0 < a
      · simp [hpos]
      · have hz : a = 0 := le_antisymm (not_lt.mp hpos) ha
        simp [hpos, hz, min_eq_left haac]
    | some w =>
      have hw : w ≠ 0 := fun h => hr (by rw [h])
      simp [hw]

lemma walletAllocCalc_error (a aac : Money) (uw : Bool) (r : Option Money) (e : Err)
    (h : walletAllocCalc a aac uw r = .error e) : collapseErr e = e := by
  unfold walletAllocCalc at h
  cases uw with
  | false => cases r <;> dsimp only at h <;> exact Except.noConfusion h
  | true =>
    cases r with
    | none => dsimp only at h; split_ifs at h
    | some w =>
      dsimp only at h
      split_ifs at h
      · exact (Except.error.inj h) ▸ rfl
      · exact (Except.error.inj h) ▸ rfl

lemma checkItems_some_collapse (db : DB) (l : List CartItem) (e : Err)
    (h : checkItems db l = some e) : collapseErr e = e := by
  induction l with
  | nil => simp [checkItems] at h
  | cons i rest ih =>
    unfold checkItems at h
    split_ifs at h
    · exact (Option.some.inj h) ▸ rfl
    · exact (Option.some.inj h) ▸ rfl
    · exact ih h

lemma checkItems_none (db : DB) (l : List CartItem) (h : checkItems db l = none) :
    ∀ i ∈ l, (db.products i.productId).isActive = true ∧
      (i.quantity : Int) ≤ (db.products i.productId).stock := by
  induction l with
  | nil => intro i hi; cases hi
  | cons j rest ih =>
    unfold checkItems at h
    split_ifs at h with h1 h2
    intro i hi
    rcases List.mem_cons.mp hi with hi2 | hi2
    · subst hi2
      exact ⟨by simpa using h1, not_lt.mp h2⟩
    · exact ih h i hi2

lemma couponStage_collapse (db : DB) (uid : UserId) (now : Int) (code : Option String)
    (st : Money) :
    couponStagePlace db uid now code st = collapse (couponStageCalc db uid now code st) := by
  unfold couponStagePlace couponStageCalc
  cases code with
  | none => rfl
  | some s =>
    by_cases hs : s = ""
    · simp [hs, collapse]
    · simp only [hs, if_false]
      cases findCoupon db s with
      | none => rfl
      | some c =>
        dsimp only
        rw [evalCouponPlace_collapse]
        cases evalCouponCalc c (db.userCouponCount uid c.id) now st <;> rfl

lemma couponStageCalc_ok (db : DB) (uid : UserId) (now : Int) (code : Option String)
    (st d : Money) (cop : Option Coupon)
    (h : couponStageCalc db uid now code st = .ok (d, cop)) : d ≤ st ∨ d = 0 := by
  unfold couponStageCalc at h
  cases code with
  | none => right; exact ((Prod.mk.injEq _ _ _ _).mp (Except.ok.inj h)).1.symm
  | some s =>
    dsimp only at h
    by_cases hs : s = ""
    · rw [if_pos hs] at h
      right; exact ((Prod.mk.injEq _ _ _ _).mp (Except.ok.inj h)).1.symm
    · rw [if_neg hs] at h
      cases hfc : findCoupon db s with
      | none => rw [hfc] at h; simp at h
      | some c =>
        rw [hfc] at h
        dsimp only at h
        cases hec : evalCouponCalc c (db.userCouponCount uid c.id) now st with
        | error e => rw [hec] at h; simp at h
        | ok d2 =>
          rw [hec] at h
          dsimp only at h
          have hd : d2 = d := ((Prod.mk.injEq _ _ _ _).mp (Except.ok.inj h)).1
          left
          rw [← hd, evalCouponCalc_ok _ _ _ _ _ hec]
          exact couponDiscountOf_le c st



lemma adjustStock_stock (f : ProductId → Product) (p0 p : ProductId) (d : Int) :
    ((adjustStock f p0 d) p).stock = (f p).stock + (if p0 = p then d else 0) := by
  unfold adjustStock
  by_cases h : p = p0
  · subst h; simp
  · have h2 : ¬ p0 = p := fun hh => h hh.symm
    simp [h, h2]

lemma decStocks_stock (l : List OrderItemRow) :
    ∀ f p, ((decStocks f l) p).stock = (f p).stock - sumQty l p := by
  induction l with
  | nil => intro f p; simp [decStocks, sumQty]
  | cons i rest ih =>
    intro f p
    unfold decStocks sumQty
    rw [ih, adjustStock_stock]
    by_cases h : i.productId = p <;> (simp [h]; try omega)

lemma incStocks_stock (l : List OrderItemRow) :
    ∀ f p, ((incStocks f l) p).stock = (f p).stock + sumQty l p := by
  induction l with
  | nil => intro f p; simp [incStocks, sumQty]
  | cons i rest ih =>
    intro f p
    unfold incStocks sumQty
    rw [ih, adjustStock_stock]
    by_cases h : i.productId = p <;> (simp [h]; try omega)

lemma bump_bump (cs : List Coupon) (cid : CouponId) :
    bumpCouponUsage (bumpCouponUsage cs cid 1) cid (-1) = cs := by
  unfold bumpCouponUsage
  rw [List.map_map]
  have hc : ∀ c ∈ cs, ((fun c => if c.id = cid then { c with currentUsageCount := c.currentUsageCount + -1 } else c) ∘
      (fun c => if c.id = cid then { c with currentUsageCount := c.currentUsageCount + 1 } else c)) c = c := by
    intro c _
    by_cases h : c.id = cid
    · simp only [Function.comp, h, if_true]
      rw [← h, show c.currentUsageCount + 1 + -1 = c.currentUsageCount by omega]
    · simp [Function.comp, h]
  rw [List.map_congr_left hc]
  simp

lemma userCoupon_roundtrip (f : UserId → CouponId → Option Int) (uid : UserId) (cid : CouponId)
    (u : UserId) (c : CouponId) :
    ((decUserCoupon (upsertUserCoupon f uid cid) uid cid u c).getD 0) = ((f u c).getD 0) := by
  unfold decUserCoupon upsertUserCoupon
  by_cases h : u = uid ∧ c = cid
  · obtain ⟨rfl, rfl⟩ := h
    cases hf : f u c <;> simp [hf]
  · simp [h]

lemma updatePaymentStatus_failed (db : DB) (uid : UserId) (oid : OrderId) (o0 : OrderRow)
    (hf : findOrder db oid uid = some o0) (hns : o0.paymentStatus ≠ .SUCCESS) :
    updatePaymentStatus db uid oid .FAILED =
      .ok (reconcileCompensate
             { db with orders := setOrderRow db.orders oid (reconcileUpdate o0 .FAILED),
                       txns := setTxnStatus db.txns oid .FAILED }
             uid (reconcileUpdate o0 .FAILED),
           reconcileUpdate o0 .FAILED) := by
  unfold updatePaymentStatus
  rw [hf]
  simp [hns]

lemma updatePaymentStatus_success (db : DB) (uid : UserId) (oid : OrderId) (o0 : OrderRow)
    (hf : findOrder db oid uid = some o0) (hns : o0.paymentStatus ≠ .SUCCESS) :
    updatePaymentStatus db uid oid .SUCCESS =
      .ok ({ db with orders := setOrderRow db.orders oid (reconcileUpdate o0 .SUCCESS),
                     txns := setTxnStatus db.txns oid .SUCCESS },
           reconcileUpdate o0 .SUCCESS) := by
  unfold updatePaymentStatus
  rw [hf]
  simp [hns]

lemma updatePaymentStatus_settled (db : DB) (uid : UserId) (oid : OrderId) (o0 : OrderRow)
    (ps : PaymentStatus) (hf : findOrder db oid uid = some o0)
    (hs : o0.paymentStatus = .SUCCESS) (hps : ps = .SUCCESS ∨ ps = .FAILED) :
    updatePaymentStatus db uid oid ps = .error .PaymentAlreadyCompleted := by
  unfold updatePaymentStatus
  rw [hf]
  rcases hps with rfl | rfl <;> simp [hs]

lemma findOrder_placeTx (cd : CommitData) (db : DB) :
    findOrder (placeOrderTx cd db).1 (placeOrderTx cd db).2.id cd.uid =
      some (placeOrderTx cd db).2 := by
  unfold findOrder placeOrderTx
  simp [List.find?_cons]

lemma placeOrder_eq (db : DB) (uid : UserId) (now : Int) (inp : PricingInput) (b : Breakdown)
    (hpp : placeOrderPricing db uid now inp = .ok b) :
    placeOrder db uid now inp = .ok (placeOrderTx (commitDataFor db uid b) db) := by
  simp [placeOrder, hpp]

lemma placeOrderPricing_ok (db : DB) (uid : UserId) (now : Int) (inp : PricingInput)
    (b : Breakdown) (h : placeOrderPricing db uid now inp = .ok b) :
    checkItems db (db.carts uid) = none ∧
    b.subtotal = subtotalOf db (db.carts uid) ∧
    (b.couponDiscount ≤ b.subtotal ∨ b.couponDiscount = 0) ∧
    b.finalAmount = max 0 (b.subtotal - b.couponDiscount - b.walletPointsUsed) := by
  unfold placeOrderPricing at h
  by_cases he : (db.carts uid).isEmpty
  · rw [if_pos he] at h; exact Except.noConfusion h
  rw [if_neg he] at h
  cases hchk : checkItems db (db.carts uid) with
  | some e => rw [hchk] at h; exact Except.noConfusion h
  | none =>
    rw [hchk] at h
    dsimp only at h
    refine ⟨rfl, ?_⟩
    cases hcs : couponStagePlace db uid now inp.couponCode (subtotalOf db (db.carts uid)) with
    | error e => rw [hcs] at h; exact Except.noConfusion h
    | ok dc =>
      rw [hcs] at h
      obtain ⟨d, cop⟩ := dc
      dsimp only at h
      cases hwa : walletAllocPlace (db.walletPoints uid)
          (subtotalOf db (db.carts uid) - d) inp.useWalletPoints inp.walletPointsToUse with
      | error e => rw [hwa] at h; exact Except.noConfusion h
      | ok w =>
        rw [hwa] at h
        dsimp only at h
        have hb := (Except.ok.inj h).symm
        subst hb
        refine ⟨rfl, ?_, rfl⟩
        have := couponStageCalc_ok db uid now inp.couponCode (subtotalOf db (db.carts uid)) d cop ?_
        · exact this
        · have hcol := couponStage_collapse db uid now inp.couponCode (subtotalOf db (db.carts uid))
          rw [hcol] at hcs
          cases hcs2 : couponStageCalc db uid now inp.couponCode (subtotalOf db (db.carts uid)) with
          | error e => rw [hcs2] at hcs; exact Except.noConfusion hcs
          | ok dc2 =>
            rw [hcs2] at hcs
            have hdc : dc2 = (d, cop) := Except.ok.inj hcs
            rw [hdc]

theorem pricing_equiv (db : DB) (uid : UserId) (now : Int) (inp : PricingInput)
    (hw : inp.walletPointsToUse ≠ some 0)
    (hbal : 0 ≤ db.walletPoints uid)
    (hsub : 0 ≤ subtotalOf db (db.carts uid)) :
    placeOrderPricing db uid now inp = collapse (calculateOrder db uid now inp) := by
  unfold placeOrderPricing calculateOrder
  by_cases he : (db.carts uid).isEmpty
  · rw [if_pos he, if_pos he]; rfl
  rw [if_neg he, if_neg he]
  cases hchk : checkItems db (db.carts uid) with
  | some e =>
    dsimp only [collapse]
    rw [checkItems_some_collapse db _ e hchk]
  | none =>
    dsimp only
    rw [couponStage_collapse]
    cases hcs : couponStageCalc db uid now inp.couponCode (subtotalOf db (db.carts uid)) with
    | error e => rfl
    | ok dc =>
      obtain ⟨d, cop⟩ := dc
      dsimp only [collapse]
      have haac : 0 ≤ subtotalOf db (db.carts uid) - d := by
        rcases couponStageCalc_ok db uid now inp.couponCode _ d cop hcs with hle | h0
        · linarith
        · rw [h0, sub_zero]; exact hsub
      rw [walletAlloc_agree (db.walletPoints uid) (subtotalOf db (db.carts uid) - d)
            inp.useWalletPoints inp.walletPointsToUse hw hbal haac]
      cases hwa : walletAllocCalc (db.walletPoints uid) (subtotalOf db (db.carts uid) - d)
          inp.useWalletPoints inp.walletPointsToUse with
      | error e =>
        dsimp only
        rw [walletAllocCalc_error _ _ _ _ _ hwa]
      | ok w => rfl

lemma snapshot_pids (db : DB) (l : List CartItem) :
    (l.map (snapshotItem db)).map (fun i => i.productId) = l.map (fun i => i.productId) := by
  rw [List.map_map]
  rfl

lemma sumQty_zero_of_not_mem (l : List OrderItemRow) (p : ProductId)
    (h : p ∉ l.map (fun i => i.productId)) : sumQty l p = 0 := by
  induction l with
  | nil => rfl
  | cons i rest ih =>
    unfold sumQty
    have hne : ¬ i.productId = p := by
      intro he; exact h (by simp [he])
    rw [if_neg hne, ih (fun hm => h (by simp [hm]))]
    omega

lemma sumQty_snapshot_le (db : DB) (l : List CartItem) (p : ProductId)
    (hchk : checkItems db l = none)
    (hnd : (l.map (fun i => i.productId)).Nodup)
    (h0 : 0 ≤ (db.products p).stock) :
    sumQty (l.map (snapshotItem db)) p ≤ (db.products p).stock := by
  induction l with
  | nil => simpa [sumQty] using h0
  | cons i rest ih =>
    unfold checkItems at hchk
    split_ifs at hchk with h1 h2
    have hnd2 := List.nodup_cons.mp hnd
    simp only [List.map_cons]
    unfold sumQty
    by_cases hip : (snapshotItem db i).productId = p
    · have hple : (i.quantity : Int) ≤ (db.products p).stock := by
        have : (snapshotItem db i).productId = i.productId := rfl
        rw [← this, hip] at h2
        exact not_lt.mp h2
      have hzero : sumQty (rest.map (snapshotItem db)) p = 0 := by
        apply sumQty_zero_of_not_mem
        rw [snapshot_pids]
        have hip2 : i.productId = p := hip
        rw [← hip2]
        exact hnd2.1
      rw [if_pos hip, hzero]
      simpa using hple
    · rw [if_neg hip]
      simpa using ih hchk hnd2.2

lemma commit_stock_nonneg (db : DB) (uid : UserId) (now : Int) (inp : PricingInput)
    (b : Breakdown)
    (hpp : placeOrderPricing db uid now inp = .ok b)
    (hstock : ∀ p, 0 ≤ (db.products p).stock)
    (hnd : ((db.carts uid).map (fun i => i.productId)).Nodup) :
    ∀ p, 0 ≤ (((placeOrderTx (commitDataFor db uid b) db).1).products p).stock := by
  intro p
  have hchk := (placeOrderPricing_ok db uid now inp b hpp).1
  have hle := sumQty_snapshot_le db (db.carts uid) p hchk hnd (hstock p)
  simp only [placeOrderTx, commitDataFor]
  rw [decStocks_stock]
  have : ((db.carts uid).map (fun i =>
      ({ productId := i.productId, quantity := i.quantity,
         price := (db.products i.productId).price } : OrderItemRow))) =
      (db.carts uid).map (snapshotItem db) := rfl
  rw [this]
  omega


/-! ### Claim theorems, counterexamples and witnesses -/

lemma if_lt_eq_min (m raw : Money) : (if m < raw then m else raw) = min raw m := by
  rcases le_or_lt raw m with h | h
  · rw [if_neg (not_lt.mpr h), min_eq_left h]
  · rw [if_pos h, min_eq_right (le_of_lt h)]

/-- C7: for a coupon passing all eligibility checks, the discount is:
PERCENTAGE: subtotal*value/100 capped at maxDiscount when maxDiscount is
set (non-null), FIXED: the value verbatim; in both cases clamped to the
subtotal, so the discount never exceeds the subtotal and
subtotal - discount is never negative. -/
theorem coupon_discount_formula (c : Coupon) (u : Option Int) (now : Int) (st d : Money)
    (h : evalCouponCalc c u now st = .ok d) :
    (c.discountType = .PERCENTAGE → ∀ m, c.maxDiscount = some m →
      d = min (min (st * c.discountValue / 100) m) st) ∧
    (c.discountType = .PERCENTAGE → c.maxDiscount = none →
      d = min (st * c.discountValue / 100) st) ∧
    (c.discountType = .FIXED → d = min c.discountValue st) ∧
    d ≤ st ∧ 0 ≤ st - d := by
  have hd := evalCouponCalc_ok c u now st d h
  subst hd
  refine ⟨?_, ?_, ?_, couponDiscountOf_le c st, sub_nonneg.mpr (couponDiscountOf_le c st)⟩
  · intro hdt m hm
    unfold couponDiscountOf
    rw [hdt, hm]
    dsimp only
    rw [if_lt_eq_min]
  · intro hdt hm
    unfold couponDiscountOf
    rw [hdt, hm]
  · intro hdt
    unfold couponDiscountOf
    rw [hdt]

lemma minPurchaseBlocks_some_zero (c : Coupon) (st : Money) (hst : 0 ≤ st) :
    minPurchaseBlocks { c with minPurchase := some 0 } st = false := by
  simp [minPurchaseBlocks, not_lt.mpr hst]

/-- C10 (amended): a stored 0 behaves as an absent limit for
minPurchase (nonnegative subtotals are never below 0), totalUsageLimit
and usageLimitPerUser (JS number 0 is falsy), in both pricing and
commit; but maxDiscount 0 is a truthy Decimal object and caps a positive
PERCENTAGE discount to 0 instead of imposing no cap. -/
theorem zero_limits_behavior (c : Coupon) (u : Option Int) (now : Int) (st d : Money)
    (hst : 0 ≤ st) (hv : 0 ≤ c.discountValue) :
    (evalCouponCalc { c with minPurchase := some 0 } u now st =
       evalCouponCalc { c with minPurchase := none } u now st) ∧
    (evalCouponPlace { c with minPurchase := some 0 } u now st =
       evalCouponPlace { c with minPurchase := none } u now st) ∧
    (evalCouponCalc { c with totalUsageLimit := some 0 } u now st =
       evalCouponCalc { c with totalUsageLimit := none } u now st) ∧
    (evalCouponPlace { c with totalUsageLimit := some 0 } u now st =
       evalCouponPlace { c with totalUsageLimit := none } u now st) ∧
    (evalCouponCalc { c with usageLimitPerUser := some 0 } u now st =
       evalCouponCalc { c with usageLimitPerUser := none } u now st) ∧
    (evalCouponPlace { c with usageLimitPerUser := some 0 } u now st =
       evalCouponPlace { c with usageLimitPerUser := none } u now st) ∧
    (c.discountType = .PERCENTAGE → c.maxDiscount = some 0 →
      evalCouponCalc c u now st = .ok d → d = 0) ∧
    (c.discountType = .PERCENTAGE → c.maxDiscount = some 0 →
      evalCouponPlace c u now st = .ok d → d = 0) := by
  have hcap : couponDiscountOf c st = d → c.discountType = .PERCENTAGE → c.maxDiscount = some 0 → d = 0 := by
    intro hcd hdt hm
    unfold couponDiscountOf at hcd
    rw [hdt, hm] at hcd
    dsimp only at hcd
    rw [if_lt_eq_min] at hcd
    rcases le_or_lt (st * c.discountValue / 100) 0 with hr | hr
    · have h0 : min (st * c.discountValue / 100) (0 : Money) = st * c.discountValue / 100 :=
        min_eq_left hr
      have hge : 0 ≤ st * c.discountValue / 100 := by positivity
      have hz : st * c.discountValue / 100 = 0 := le_antisymm hr hge
      rw [h0, hz, min_eq_left hst] at hcd
      exact hcd.symm
    · rw [min_eq_right (le_of_lt hr), min_eq_left hst] at hcd
      exact hcd.symm
  refine ⟨?_, ?_, ?_, ?_, ?_, ?_, ?_, ?_⟩
  · unfold evalCouponCalc
    rw [minPurchaseBlocks_some_zero c st hst]
    rfl
  · unfold evalCouponPlace
    rw [minPurchaseBlocks_some_zero c st hst]
    rfl
  · rfl
  · rfl
  · cases u <;> rfl
  · cases u <;> rfl
  · intro hdt hm h
    exact hcap (evalCouponCalc_ok c u now st d h).symm hdt hm
  · intro hdt hm h
    exact hcap (evalCouponPlace_ok c u now st d h).symm hdt hm

/-- C2 (amended): placeOrder re-runs the full pricing pipeline before
its transaction; whenever the explicit wallet request is not 0 (and the
wallet balance and subtotal are nonnegative, as the system guarantees),
the re-run accepts and rejects exactly as calculateOrder does and
computes the identical breakdown, up to collapsing the distinct
coupon-not-found/coupon-inactive errors of calculateOrder into the
single combined outcome of placeOrder; the accepted breakdown is exactly what the
transaction body commits. -/
theorem commit_repricing_agrees (db : DB) (uid : UserId) (now : Int) (inp : PricingInput)
    (hw : inp.walletPointsToUse ≠ some 0)
    (hbal : 0 ≤ db.walletPoints uid)
    (hsub : 0 ≤ subtotalOf db (db.carts uid)) :
    placeOrderPricing db uid now inp = collapse (calculateOrder db uid now inp) ∧
    (∀ b, placeOrderPricing db uid now inp = .ok b →
      placeOrder db uid now inp = .ok (placeOrderTx (commitDataFor db uid b) db)) :=
  ⟨pricing_equiv db uid now inp hw hbal hsub,
   fun b hb => placeOrder_eq db uid now inp b hb⟩

/-- C3 (amended): placeOrder validates each cart line against the stock
read before the transaction and rejects insufficient stock there; the
in-transaction decrement itself is unconditional, so the no-oversell
guarantee holds for a single sequential commit (stock stays nonnegative
whenever the cart has no duplicate product rows, which the unique
(user_id, product_id) index enforces), but not at write time (see the
counterexample blind_decrement_oversell). -/
theorem sequential_commit_stock_nonneg (db : DB) (uid : UserId) (now : Int)
    (inp : PricingInput) (b : Breakdown)
    (hpp : placeOrderPricing db uid now inp = .ok b)
    (hstock : ∀ p, 0 ≤ (db.products p).stock)
    (hnd : ((db.carts uid).map (fun i => i.productId)).Nodup) :
    placeOrder db uid now inp = .ok (placeOrderTx (commitDataFor db uid b) db) ∧
    ∀ p, 0 ≤ (((placeOrderTx (commitDataFor db uid b) db).1).products p).stock :=
  ⟨placeOrder_eq db uid now inp b hpp,
   commit_stock_nonneg db uid now inp b hpp hstock hnd⟩

/-- C5: whenever the stored paymentStatus of the order is already SUCCESS,
updatePaymentStatus rejects both a SUCCESS and a FAILED outcome with the
payment-already-completed error; the error return precedes the
transaction, so the call mutates nothing. -/
theorem success_is_terminal (db : DB) (uid : UserId) (oid : OrderId) (o0 : OrderRow)
    (ps : PaymentStatus) (hf : findOrder db oid uid = some o0)
    (hs : o0.paymentStatus = .SUCCESS) (hps : ps = .SUCCESS ∨ ps = .FAILED) :
    updatePaymentStatus db uid oid ps = .error .PaymentAlreadyCompleted :=
  updatePaymentStatus_settled db uid oid o0 ps hf hs hps

/-- C4 (amended): a SUCCESS reconcile of an already-FAILED order is
accepted, not rejected: the guard only protects SUCCESS, so the order
transitions to paymentStatus SUCCESS / orderStatus CONFIRMED, while the
SUCCESS branch leaves every resource counter (stock, wallet, coupon and
user-usage) untouched - the earlier FAILED compensation stands. -/
theorem success_after_failed_transitions (db : DB) (uid : UserId) (oid : OrderId)
    (o0 : OrderRow) (hf : findOrder db oid uid = some o0)
    (hfl : o0.paymentStatus = .FAILED) :
    ∃ db2, updatePaymentStatus db uid oid .SUCCESS = .ok (db2, reconcileUpdate o0 .SUCCESS) ∧
      (reconcileUpdate o0 .SUCCESS).paymentStatus = .SUCCESS ∧
      (reconcileUpdate o0 .SUCCESS).orderStatus = .CONFIRMED ∧
      db2.products = db.products ∧ db2.walletPoints = db.walletPoints ∧
      db2.coupons = db.coupons ∧ db2.userCouponCount = db.userCouponCount := by
  have hns : o0.paymentStatus ≠ .SUCCESS := by
    rw [hfl]; exact fun hh => PaymentStatus.noConfusion hh
  exact ⟨_, updatePaymentStatus_success db uid oid o0 hf hns, rfl, rfl, rfl, rfl, rfl, rfl⟩

/-- C9: every order row created by placeOrder satisfies
finalAmount = max 0 (totalAmount - couponDiscount - walletPointsUsed)
and couponDiscount <= totalAmount (given the nonnegative subtotal the
system guarantees), and updatePaymentStatus returns the order with all
four amount fields unchanged in both its SUCCESS and FAILED branches. -/
theorem order_amount_invariants (db : DB) (uid : UserId) (now : Int) (inp : PricingInput)
    (b : Breakdown) (db0 : DB) (uid0 : UserId) (oid0 : OrderId) (o0 : OrderRow)
    (ps : PaymentStatus) (hsub : 0 ≤ subtotalOf db (db.carts uid)) :
    (placeOrderPricing db uid now inp = .ok b →
      (placeOrderTx (commitDataFor db uid b) db).2.finalAmount =
        max 0 ((placeOrderTx (commitDataFor db uid b) db).2.totalAmount -
               (placeOrderTx (commitDataFor db uid b) db).2.couponDiscount -
               (placeOrderTx (commitDataFor db uid b) db).2.walletPointsUsed) ∧
      (placeOrderTx (commitDataFor db uid b) db).2.couponDiscount ≤
        (placeOrderTx (commitDataFor db uid b) db).2.totalAmount) ∧
    (findOrder db0 oid0 uid0 = some o0 → o0.paymentStatus ≠ .SUCCESS →
      (ps = .SUCCESS ∨ ps = .FAILED) →
      ∃ db2, updatePaymentStatus db0 uid0 oid0 ps = .ok (db2, reconcileUpdate o0 ps) ∧
        (reconcileUpdate o0 ps).totalAmount = o0.totalAmount ∧
        (reconcileUpdate o0 ps).couponDiscount = o0.couponDiscount ∧
        (reconcileUpdate o0 ps).walletPointsUsed = o0.walletPointsUsed ∧
        (reconcileUpdate o0 ps).finalAmount = o0.finalAmount) := by
  constructor
  · intro hpp
    obtain ⟨hchk, hsubeq, hdisj, hfin⟩ := placeOrderPricing_ok db uid now inp b hpp
    have hta : (placeOrderTx (commitDataFor db uid b) db).2.totalAmount = b.subtotal := rfl
    have hcd : (placeOrderTx (commitDataFor db uid b) db).2.couponDiscount = b.couponDiscount := rfl
    have hwp : (placeOrderTx (commitDataFor db uid b) db).2.walletPointsUsed = b.walletPointsUsed := rfl
    have hfa : (placeOrderTx (commitDataFor db uid b) db).2.finalAmount = b.finalAmount := rfl
    rw [hta, hcd, hwp, hfa]
    refine ⟨hfin, ?_⟩
    rcases hdisj with hle | h0
    · exact hle
    · rw [h0, hsubeq]
      exact hsub
  · intro hf hns hps
    rcases hps with rfl | rfl
    · exact ⟨_, updatePaymentStatus_success db0 uid0 oid0 o0 hf hns, rfl, rfl, rfl, rfl⟩
    · exact ⟨_, updatePaymentStatus_failed db0 uid0 oid0 o0 hf hns, rfl, rfl, rfl, rfl⟩

/-- C8: the wallet allocation of calculateOrder: an explicit request fails
with InsufficientWalletBalance when above the balance, fails with
WalletExceedsPayable when above the amount after coupon, and is used
verbatim otherwise; no explicit request auto-applies
min(balance, amountAfterCoupon); useWalletPoints false gives 0.
Hypotheses: balance and payable nonnegative (system invariants). -/
theorem wallet_allocation_rules (available aac : Money)
    (ha : 0 ≤ available) (haac : 0 ≤ aac) :
    (∀ w, available < w →
      walletAllocCalc available aac true (some w) = .error .InsufficientWalletBalance) ∧
    (∀ w, w ≤ available → aac < w →
      walletAllocCalc available aac true (some w) = .error .WalletExceedsPayable) ∧
    (∀ w, w ≤ available → w ≤ aac →
      walletAllocCalc available aac true (some w) = .ok w) ∧
    (walletAllocCalc available aac true none = .ok (min available aac)) ∧
    (∀ r, walletAllocCalc available aac false r = .ok 0) := by
  refine ⟨?_, ?_, ?_, ?_, ?_⟩
  · intro w hlt
    unfold walletAllocCalc
    dsimp only
    rw [if_pos hlt]
  · intro w hle hlt
    unfold walletAllocCalc
    dsimp only
    rw [if_neg (not_lt.mpr hle), if_pos hlt]
  · intro w hle1 hle2
    unfold walletAllocCalc
    dsimp only
    rw [if_neg (not_lt.mpr hle1), if_neg (not_lt.mpr hle2)]
  · unfold walletAllocCalc
    dsimp only
    by_cases hpos : 0 < available
    · rw [if_pos hpos]
    · have hz : available = 0 := le_antisymm (not_lt.mp hpos) ha
      rw [if_neg hpos, hz, min_eq_left haac]
  · intro r
    cases r <;> rfl

/-- C6: a successful placeOrder followed by one FAILED reconcile of the
created order restores the stock of every product, the wallet
balance of every user, the coupon table (hence every currentUsageCount) and every
user-coupon usage count (a missing user_coupons row read as 0, exactly
as the code reads it) to their pre-commit values. -/
theorem commit_reconcile_failed_roundtrip (db : DB) (uid : UserId) (now : Int)
    (inp : PricingInput) (b : Breakdown)
    (hpp : placeOrderPricing db uid now inp = .ok b) :
    placeOrder db uid now inp = .ok (placeOrderTx (commitDataFor db uid b) db) ∧
    ∃ db2 o2,
      updatePaymentStatus (placeOrderTx (commitDataFor db uid b) db).1 uid
        (placeOrderTx (commitDataFor db uid b) db).2.id .FAILED = .ok (db2, o2) ∧
      (∀ p, (db2.products p).stock = (db.products p).stock) ∧
      (∀ u, db2.walletPoints u = db.walletPoints u) ∧
      db2.coupons = db.coupons ∧
      (∀ u c, (db2.userCouponCount u c).getD 0 = (db.userCouponCount u c).getD 0) := by
  constructor
  · exact placeOrder_eq db uid now inp b hpp
  · have hfind := findOrder_placeTx (commitDataFor db uid b) db
    have hns : (placeOrderTx (commitDataFor db uid b) db).2.paymentStatus ≠ .SUCCESS := by
      simp [placeOrderTx]
    have hcuid : (commitDataFor db uid b).uid = uid := rfl
    rw [hcuid] at hfind
    refine ⟨_, _, updatePaymentStatus_failed _ _ _ _ hfind hns, ?_, ?_, ?_, ?_⟩
    · intro p
      simp only [reconcileCompensate, placeOrderTx, reconcileUpdate, commitDataFor]
      rw [incStocks_stock, decStocks_stock]
      omega
    · intro u
      simp only [reconcileCompensate, placeOrderTx, reconcileUpdate, commitDataFor]
      by_cases hu : u = uid
      · by_cases hw : 0 < b.walletPointsUsed
        · simp [hu, hw]
        · simp [hu, hw]
      · simp [hu]
    · simp only [reconcileCompensate, placeOrderTx, reconcileUpdate, commitDataFor]
      cases hc : b.coupon with
      | none => simp
      | some c0 => exact bump_bump db.coupons c0.id
    · intro u c
      simp only [reconcileCompensate, placeOrderTx, reconcileUpdate, commitDataFor]
      cases hc : b.coupon with
      | none => simp
      | some c0 =>
        exact userCoupon_roundtrip db.userCouponCount uid c0.id u c

/-! ### C1: repeating a FAILED reconcile runs the compensation again -/

/-- C1 (code bug demonstration): exFailedDB holds an order that has
already been reconciled FAILED (stock 5, wallet 50, user usage 1, global
usage 0 are the already-compensated values).  A second FAILED call is
accepted and compensates again: stock 5 to 7, wallet 50 to 54, the
user_coupons count 1 to 0 and the global counter 0 to -1 (below zero). -/
theorem repeat_failed_reconcile_recompensates :
    (okPart (updatePaymentStatus exFailedDB 7 0 .FAILED)).map
      (fun r => ((r.1.products 1).stock, r.1.walletPoints 7,
                 (r.1.userCouponCount 7 3).getD 0,
                 r.1.coupons.map (fun c => c.currentUsageCount),
                 r.2.paymentStatus, r.2.orderStatus)) =
      some (7, 54, 0, [-1], .FAILED, .CANCELLED) ∧
    (exFailedDB.products 1).stock = 5 ∧
    exFailedDB.walletPoints 7 = 50 ∧
    (exFailedDB.userCouponCount 7 3).getD 0 = 1 ∧
    exFailedDB.coupons.map (fun c => c.currentUsageCount) = [0] := by
  norm_num +decide [updatePaymentStatus, exFailedDB, exFailedOrder, exProducts, exCoupon,
    findOrder, reconcileUpdate, reconcileCompensate, setOrderRow, setTxnStatus, incStocks,
    adjustStock, bumpCouponUsage, decUserCoupon, okPart]

/-! ### C4: counterexample -/

/-- C4 (counterexample): on the already-FAILED order of exFailedDB a
SUCCESS reconcile is not rejected: it succeeds and moves the order to
SUCCESS/CONFIRMED, refuting the claimed AlreadySettled conflict. -/
theorem success_after_failed_accepted :
    (okPart (updatePaymentStatus exFailedDB 7 0 .SUCCESS)).map
      (fun r => (r.2.paymentStatus, r.2.orderStatus)) =
      some (.SUCCESS, .CONFIRMED) := by
  norm_num +decide [updatePaymentStatus, exFailedDB, exFailedOrder, findOrder,
    reconcileUpdate, setOrderRow, setTxnStatus, okPart]

/-! ### C2: counterexample -/

/-- C2 (counterexample): with useWalletPoints and an explicit
walletPointsToUse of 0 (cart subtotal 20, balance 20), calculateOrder
prices the order with 0 wallet points (final 20) while the re-run in
placeOrder auto-applies 20 points (final 0): the commit-time re-validation
does not compute the same breakdown. -/
theorem wallet_zero_request_divergence :
    (okPart (calculateOrder exDB 7 50 exInpWalletZero)).map
      (fun b => (b.walletPointsUsed, b.finalAmount)) = some (0, 20) ∧
    (okPart (placeOrderPricing exDB 7 50 exInpWalletZero)).map
      (fun b => (b.walletPointsUsed, b.finalAmount)) = some (20, 0) := by
  constructor
  · norm_num +decide [calculateOrder, exDB, exProducts, exInpWalletZero, checkItems,
      subtotalOf, couponStageCalc, walletAllocCalc, findCoupon, okPart]
  · norm_num +decide [placeOrderPricing, exDB, exProducts, exInpWalletZero, checkItems,
      subtotalOf, couponStagePlace, walletAllocPlace, findCoupon, okPart]

/-! ### C3: counterexample -/

/-- C3 (counterexample): product 1 has stock 1; users 7 and 8 each cart
one unit.  Both pre-transaction validations read the initial state and
pass; the transaction bodies (which decrement blindly and have no abort
path) then both run, driving the stock to -1 with no InsufficientStock
error at write time.  This interleaving is possible because the source
validates before prisma.$transaction is opened and the in-transaction
decrement is unconditional. -/
theorem blind_decrement_oversell :
    placeOrderPricing exRaceDB 7 0 exRaceInp = .ok exRaceBd ∧
    placeOrderPricing exRaceDB 8 0 exRaceInp = .ok exRaceBd ∧
    ((((placeOrderTx (commitDataFor exRaceDB 8 exRaceBd)
        ((placeOrderTx (commitDataFor exRaceDB 7 exRaceBd) exRaceDB).1)).1).products 1).stock
      = -1) := by
  refine ⟨?_, ?_, ?_⟩
  · norm_num +decide [placeOrderPricing, exRaceDB, exRaceInp, exRaceBd, checkItems,
      subtotalOf, couponStagePlace, walletAllocPlace, findCoupon]
  · norm_num +decide [placeOrderPricing, exRaceDB, exRaceInp, exRaceBd, checkItems,
      subtotalOf, couponStagePlace, walletAllocPlace, findCoupon]
  · norm_num +decide [placeOrderTx, commitDataFor, exRaceDB, exRaceBd, decStocks, adjustStock]

/-! ### C10: counterexample -/

/-- C10 (counterexample): a PERCENTAGE 10 coupon with maxDiscount
stored as 0 yields discount 0 on subtotal 100 (the Decimal object 0 is
truthy, so the cap branch runs and clamps to 0), while the same coupon
with maxDiscount null yields 10: the zero limit does not behave as an
absent one, in either pricing or commit. -/
theorem max_discount_zero_caps :
    evalCouponCalc exPctCouponMaxZero none 50 100 = .ok 0 ∧
    evalCouponCalc { exPctCouponMaxZero with maxDiscount := none } none 50 100 = .ok 10 ∧
    evalCouponPlace exPctCouponMaxZero none 50 100 = .ok 0 := by
  refine ⟨?_, ?_, ?_⟩ <;>
    norm_num +decide [evalCouponCalc, evalCouponPlace, exPctCouponMaxZero, minPurchaseBlocks,
      totalUsageLimitBlocks, userUsageLimitBlocks, couponDiscountOf]

/-! ### Witnesses -/

/-- C2 witness: the repricing agreement applied at exDB/exInp. -/
theorem commit_repricing_agrees_witness :
    placeOrderPricing exDB 7 50 exInp = collapse (calculateOrder exDB 7 50 exInp) :=
  (commit_repricing_agrees exDB 7 50 exInp
    (by norm_num [exInp])
    (by norm_num [exDB])
    (by norm_num [subtotalOf, exDB, exProducts])).1

/-- C3 witness: the sequential commit on exDB leaves product 1 with
nonnegative stock. -/
theorem sequential_commit_stock_nonneg_witness :
    placeOrder exDB 7 50 exInp = .ok (placeOrderTx (commitDataFor exDB 7 exBd) exDB) ∧
    0 ≤ (((placeOrderTx (commitDataFor exDB 7 exBd) exDB).1).products 1).stock := by
  obtain ⟨h1, h2⟩ := sequential_commit_stock_nonneg exDB 7 50 exInp exBd
    (by norm_num +decide [placeOrderPricing, exDB, exProducts, exCoupon, exInp, exBd,
      checkItems, subtotalOf, couponStagePlace, evalCouponPlace, minPurchaseBlocks,
      totalUsageLimitBlocks, userUsageLimitBlocks, couponDiscountOf, walletAllocPlace,
      findCoupon])
    exDB_stock_nonneg
    (by norm_num [exDB])
  exact ⟨h1, h2 1⟩

/-- C4 witness: the amended behavior applied at exFailedDB: the SUCCESS
call after FAILED returns the order as SUCCESS/CONFIRMED and touches no
counters (stock still 5, wallet still 50). -/
theorem success_after_failed_transitions_witness :
    (okPart (updatePaymentStatus exFailedDB 7 0 .SUCCESS)).map
      (fun r => (r.2.paymentStatus, r.2.orderStatus, (r.1.products 1).stock,
                 r.1.walletPoints 7)) =
      some (.SUCCESS, .CONFIRMED, 5, 50) := by
  obtain ⟨db2, heq, hps2, hos, hprod, hwal, _, _⟩ :=
    success_after_failed_transitions exFailedDB 7 0 exFailedOrder
      (by norm_num +decide [findOrder, exFailedDB, exFailedOrder])
      rfl
  rw [heq]
  dsimp only [okPart, Option.map]
  rw [hprod, hwal]
  norm_num +decide [reconcileUpdate, exFailedDB, exFailedOrder, exProducts]

/-- C5 witness: on the settled exSettledDB both a FAILED and a SUCCESS
reconcile are rejected with the payment-already-completed error. -/
theorem success_is_terminal_witness :
    updatePaymentStatus exSettledDB 7 0 .FAILED = .error .PaymentAlreadyCompleted ∧
    updatePaymentStatus exSettledDB 7 0 .SUCCESS = .error .PaymentAlreadyCompleted :=
  ⟨success_is_terminal exSettledDB 7 0 exSettledOrder .FAILED
      (by norm_num +decide [findOrder, exSettledDB, exFailedDB, exSettledOrder, exFailedOrder])
      rfl (Or.inr rfl),
   success_is_terminal exSettledDB 7 0 exSettledOrder .SUCCESS
      (by norm_num +decide [findOrder, exSettledDB, exFailedDB, exSettledOrder, exFailedOrder])
      rfl (Or.inl rfl)⟩

/-- C6 witness: the round trip on exDB restores stock 5, wallet 20, the
coupon list and the (absent) user-usage row. -/
theorem commit_reconcile_failed_roundtrip_witness :
    (okPart (updatePaymentStatus (placeOrderTx (commitDataFor exDB 7 exBd) exDB).1 7
        (placeOrderTx (commitDataFor exDB 7 exBd) exDB).2.id .FAILED)).map
      (fun r => ((r.1.products 1).stock, r.1.walletPoints 7, r.1.coupons,
                 (r.1.userCouponCount 7 3).getD 0)) =
      some (5, 20, [exCoupon], 0) := by
  obtain ⟨hpl, db2, o2, heq, hstk, hwal, hcoup, hucc⟩ :=
    commit_reconcile_failed_roundtrip exDB 7 50 exInp exBd
      (by norm_num +decide [placeOrderPricing, exDB, exProducts, exCoupon, exInp, exBd,
        checkItems, subtotalOf, couponStagePlace, evalCouponPlace, minPurchaseBlocks,
        totalUsageLimitBlocks, userUsageLimitBlocks, couponDiscountOf, walletAllocPlace,
        findCoupon])
  rw [heq]
  dsimp only [okPart, Option.map]
  rw [hstk 1, hwal 7, hcoup, hucc 7 3]
  norm_num +decide [exDB, exProducts]

/-- C7 witness: the worked scenario from the specification: PERCENTAGE 20
capped at 200 on subtotal 1000 gives exactly 200, within the subtotal. -/
theorem coupon_discount_formula_witness :
    evalCouponCalc exPctCouponCap none 50 1000 = .ok 200 ∧
    (200 : Money) = min (min ((1000 : Money) * 20 / 100) 200) 1000 ∧
    (200 : Money) ≤ 1000 := by
  have h : evalCouponCalc exPctCouponCap none 50 1000 = .ok 200 := by
    norm_num +decide [evalCouponCalc, exPctCouponCap, minPurchaseBlocks,
      totalUsageLimitBlocks, userUsageLimitBlocks, couponDiscountOf]
  obtain ⟨f1, _, _, f4, _⟩ := coupon_discount_formula exPctCouponCap none 50 1000 200 h
  exact ⟨h, f1 rfl 200 rfl, f4⟩

/-- C8 witness: the allocation rules applied at balance 50 and payable
30: over-balance request fails, over-payable request fails, a feasible
request of 20 is honored, auto-apply gives min 50 30, wallet off gives 0. -/
theorem wallet_allocation_rules_witness :
    walletAllocCalc 50 30 true (some 60) = .error .InsufficientWalletBalance ∧
    walletAllocCalc 50 30 true (some 40) = .error .WalletExceedsPayable ∧
    walletAllocCalc 50 30 true (some 20) = .ok 20 ∧
    walletAllocCalc 50 30 true none = .ok (min 50 30) ∧
    walletAllocCalc 50 30 false (some 60) = .ok 0 := by
  obtain ⟨k1, k2, k3, k4, k5⟩ := wallet_allocation_rules 50 30 (by norm_num) (by norm_num)
  exact ⟨k1 60 (by norm_num), k2 40 (by norm_num) (by norm_num),
         k3 20 (by norm_num) (by norm_num), k4, k5 (some 60)⟩

/-- C9 witness: the created order of exDB satisfies the monetary
identity, and a FAILED reconcile of the pending order preserves its
totalAmount. -/
theorem order_amount_invariants_witness :
    ((placeOrderTx (commitDataFor exDB 7 exBd) exDB).2.finalAmount =
      max 0 ((placeOrderTx (commitDataFor exDB 7 exBd) exDB).2.totalAmount -
             (placeOrderTx (commitDataFor exDB 7 exBd) exDB).2.couponDiscount -
             (placeOrderTx (commitDataFor exDB 7 exBd) exDB).2.walletPointsUsed)) ∧
    ((placeOrderTx (commitDataFor exDB 7 exBd) exDB).2.couponDiscount ≤
      (placeOrderTx (commitDataFor exDB 7 exBd) exDB).2.totalAmount) ∧
    (reconcileUpdate exPendingOrder .FAILED).totalAmount = exPendingOrder.totalAmount := by
  obtain ⟨p1, p2⟩ := order_amount_invariants exDB 7 50 exInp exBd exPendingDB 7 0
    exPendingOrder .FAILED (by norm_num [subtotalOf, exDB, exProducts])
  have ha := p1 (by norm_num +decide [placeOrderPricing, exDB, exProducts, exCoupon, exInp,
    exBd, checkItems, subtotalOf, couponStagePlace, evalCouponPlace, minPurchaseBlocks,
    totalUsageLimitBlocks, userUsageLimitBlocks, couponDiscountOf, walletAllocPlace,
    findCoupon])
  have hb := p2
    (by norm_num +decide [findOrder, exPendingDB, exFailedDB, exPendingOrder, exFailedOrder])
    (by decide) (Or.inr rfl)
  obtain ⟨db2, _, ht, _, _, _⟩ := hb
  exact ⟨ha.1, ha.2, ht⟩

/-- C10 witness: the three zero limits that do behave as absent, applied
at the PERCENTAGE 10 coupon, plus its maxDiscount 0 capped result. -/
theorem zero_limits_behavior_witness :
    (evalCouponCalc { exPctCouponMaxZero with minPurchase := some 0 } none 50 100 =
       evalCouponCalc { exPctCouponMaxZero with minPurchase := none } none 50 100) ∧
    (evalCouponCalc { exPctCouponMaxZero with totalUsageLimit := some 0 } none 50 100 =
       evalCouponCalc { exPctCouponMaxZero with totalUsageLimit := none } none 50 100) ∧
    (evalCouponCalc { exPctCouponMaxZero with usageLimitPerUser := some 0 } none 50 100 =
       evalCouponCalc { exPctCouponMaxZero with usageLimitPerUser := none } none 50 100) ∧
    evalCouponCalc exPctCouponMaxZero none 50 100 = .ok 0 := by
  obtain ⟨q1, _, q3, _, q5, _, q7, _⟩ :=
    zero_limits_behavior exPctCouponMaxZero none 50 100 0 (by norm_num)
      (by norm_num [exPctCouponMaxZero])
  refine ⟨q1, q3, q5, ?_⟩
  norm_num +decide [evalCouponCalc, exPctCouponMaxZero, minPurchaseBlocks,
    totalUsageLimitBlocks, userUsageLimitBlocks, couponDiscountOf]

end OrderEngine
